import Mathlib

/-!
Verification of the FastGram backend's auth + counter-consistency core.

The definitions below are a shallow embedding of the route handlers in
`routes/users.js` (posts part), `routes/groups.js`, the middleware in
`middleware/auth.js` and the SQL schema in `config/database.js`.
The database is a record of lists of rows; each handler is a function
from a database (plus request parameters) to a database and a response.
SQL statements are translated clause by clause: `SELECT ... WHERE` is
`List.filter`/`List.find?`, `INSERT` appends a row, `DELETE` filters
rows out, `UPDATE ... WHERE` maps over the rows, `GREATEST(x-1,0)` is
`max (x-1) 0`, `ON CONFLICT DO NOTHING` inserts only when no row with
the conflicting key exists.  External collaborator outcomes (Cloudinary
upload/delete) are passed in as explicit parameters.
-/

namespace FastGram

/-- Row of the `users` table (config/database.js); only the columns the
claims depend on are kept. -/
structure UserRow where
  id : Nat
  username : String
  is_active : Bool
  deriving Repr, DecidableEq

/-- Row of the `posts` table.  `group_id` is the nullable column used by
the group-post endpoints in routes/groups.js. -/
structure PostRow where
  id : Nat
  user_id : Nat
  caption : String
  image_url : Option String
  group_id : Option Nat
  likes_count : Int
  comments_count : Int
  deriving Repr, DecidableEq

/-- Row of the `likes` table; UNIQUE(user_id, post_id). -/
structure LikeRow where
  id : Nat
  user_id : Nat
  post_id : Nat
  deriving Repr, DecidableEq

/-- Row of the `comments` table. -/
structure CommentRow where
  id : Nat
  user_id : Nat
  post_id : Nat
  comment_text : String
  deriving Repr, DecidableEq

/-- Row of the `followers` table; UNIQUE(follower_id, following_id). -/
structure FollowerRow where
  follower_id : Nat
  following_id : Nat
  deriving Repr, DecidableEq

/-- Row of the `groups` table. -/
structure GroupRow where
  id : Nat
  name : String
  is_private : Bool
  owner_id : Nat
  members_count : Int
  deriving Repr, DecidableEq

/-- Membership role in `group_members`. -/
inductive Role where
  | admin
  | member
  deriving Repr, DecidableEq

/-- Row of the `group_members` table; unique per (group_id, user_id). -/
structure GroupMemberRow where
  group_id : Nat
  user_id : Nat
  role : Role
  deriving Repr, DecidableEq

/-- Row of the `refresh_tokens` table.  The signed token string is
identified by a numeric serial (`token` column is UNIQUE). -/
structure RefreshTokenRow where
  user_id : Nat
  token : Nat
  expires_at : Nat
  deriving Repr, DecidableEq

/-- The relational store: one list per table plus a serial counter used
for generated ids (SERIAL PRIMARY KEY columns and fresh token strings). -/
structure DB where
  users : List UserRow
  posts : List PostRow
  likes : List LikeRow
  comments : List CommentRow
  followers : List FollowerRow
  groups : List GroupRow
  group_members : List GroupMemberRow
  refresh_tokens : List RefreshTokenRow
  next_id : Nat
  deriving Repr, DecidableEq

/-- Outcome of a handler, abstracting the HTTP response it sends. -/
inductive Resp where
  | ok
  | created
  | notFound
  | conflict
  | forbidden
  | validationFailed
  | imageRequired
  | mediaUploadFailed
  deriving Repr, DecidableEq

/-- HTTP status code carried by each response. -/
def Resp.status : Resp → Nat
  | .ok => 200
  | .created => 201
  | .notFound => 404
  | .conflict => 409
  | .forbidden => 403
  | .validationFailed => 400
  | .imageRequired => 400
  | .mediaUploadFailed => 500

/-- Rows returned by `SELECT id FROM posts WHERE id = $1`. -/
def postsWithId (db : DB) (postId : Nat) : List PostRow :=
  db.posts.filter (fun p => p.id == postId)

/-- Rows returned by
`SELECT id FROM likes WHERE user_id = $1 AND post_id = $2`. -/
def likeRowsFor (db : DB) (userId postId : Nat) : List LikeRow :=
  db.likes.filter (fun l => l.user_id == userId && l.post_id == postId)

/-- The query `SELECT * FROM posts WHERE id = $1` as a single optional row
(id is the primary key). -/
def postById (db : DB) (postId : Nat) : Option PostRow :=
  db.posts.find? (fun p => p.id == postId)

/-- The stored `likes_count` of a post, when the post exists. -/
def getLikesCount (db : DB) (postId : Nat) : Option Int :=
  (postById db postId).map (fun p => p.likes_count)

/-- The stored `comments_count` of a post, when the post exists. -/
def getCommentsCount (db : DB) (postId : Nat) : Option Int :=
  (postById db postId).map (fun p => p.comments_count)

/-- True cardinality of the Like relation backing a post's counter. -/
def likesOf (db : DB) (postId : Nat) : Nat :=
  (db.likes.filter (fun l => l.post_id == postId)).length

/-- True cardinality of the Comment relation backing a post's counter. -/
def commentsOf (db : DB) (postId : Nat) : Nat :=
  (db.comments.filter (fun c => c.post_id == postId)).length

/-- True cardinality of the GroupMember relation backing a group's
counter. -/
def membersOf (db : DB) (groupId : Nat) : Nat :=
  (db.group_members.filter (fun m => m.group_id == groupId)).length

/-- The global counter invariant of the spec: every denormalized counter
equals the cardinality of its backing relation. -/
def countersOk (db : DB) : Bool :=
  db.posts.all (fun p =>
    p.likes_count == (likesOf db p.id : Int) &&
    p.comments_count == (commentsOf db p.id : Int)) &&
  db.groups.all (fun g => g.members_count == (membersOf db g.id : Int))

/-- POST /:postId/like handler (routes/users.js, posts router,
lines 1340-1406 of the concatenated file): inside one transaction,
check the post exists (404 + rollback otherwise), check for an existing
like (409 + rollback), insert the like row and increment `likes_count`
by 1, then commit. -/
def likePost (db : DB) (userId postId : Nat) : DB × Resp :=
  if (postsWithId db postId).isEmpty then
    (db, .notFound)
  else if !(likeRowsFor db userId postId).isEmpty then
    (db, .conflict)
  else
    ({ db with
        likes := db.likes ++ [⟨db.next_id, userId, postId⟩],
        next_id := db.next_id + 1,
        posts := db.posts.map (fun p =>
          if p.id == postId then { p with likes_count := p.likes_count + 1 } else p) },
      .ok)

/-- DELETE /:postId/like handler (routes/users.js): delete the matching
like row; 404 + rollback when none was deleted, otherwise decrement
`likes_count` with `GREATEST(likes_count - 1, 0)` and commit. -/
def unlikePost (db : DB) (userId postId : Nat) : DB × Resp :=
  if (likeRowsFor db userId postId).isEmpty then
    (db, .notFound)
  else
    ({ db with
        likes := db.likes.filter (fun l => !(l.user_id == userId && l.post_id == postId)),
        posts := db.posts.map (fun p =>
          if p.id == postId then { p with likes_count := max (p.likes_count - 1) 0 } else p) },
      .ok)

/-- Validation rule `commentValidation` of routes/users.js: comment text
required, length between 1 and 500. -/
def commentTextValid (t : String) : Bool :=
  t.length ≥ 1 && t.length ≤ 500

/-- POST /:postId/comments handler (routes/users.js): validation first,
then inside one transaction check the post exists (404), insert the
comment and increment `comments_count` by 1. -/
def addComment (db : DB) (userId postId : Nat) (commentText : String) : DB × Resp :=
  if !commentTextValid commentText then
    (db, .validationFailed)
  else if (postsWithId db postId).isEmpty then
    (db, .notFound)
  else
    ({ db with
        comments := db.comments ++ [⟨db.next_id, userId, postId, commentText⟩],
        next_id := db.next_id + 1,
        posts := db.posts.map (fun p =>
          if p.id == postId then { p with comments_count := p.comments_count + 1 } else p) },
      .created)

/-- The query `SELECT user_id, post_id FROM comments WHERE id = $1` as a single
optional row. -/
def commentById (db : DB) (commentId : Nat) : Option CommentRow :=
  db.comments.find? (fun c => c.id == commentId)

/-- DELETE /:postId/comments/:commentId handler (routes/users.js,
lines 1735-1792 of the concatenated file): inside one transaction, look
the comment up by `commentId` (404 when absent), reject a non-owner
(403), delete the comment, then run
`UPDATE posts SET comments_count = GREATEST(comments_count - 1, 0)
 WHERE id = $1` with the `postId` taken from the URL — not with the
`post_id` column it just read from the comment row. -/
def deleteComment (db : DB) (userId postId commentId : Nat) : DB × Resp :=
  match commentById db commentId with
  | none => (db, .notFound)
  | some c =>
    if c.user_id != userId then
      (db, .forbidden)
    else
      ({ db with
          comments := db.comments.filter (fun x => !(x.id == commentId)),
          posts := db.posts.map (fun p =>
            if p.id == postId then
              { p with comments_count := max (p.comments_count - 1) 0 } else p) },
        .ok)

/-- Outcome of the Media Collaborator's best-effort image deletion,
parameterized by whether the external call fails.  The handlers wrap
this call in try/catch and discard the result. -/
def attemptMediaDelete (fails : Bool) : Except Unit Unit :=
  if fails then Except.error () else Except.ok ()

/-- DELETE /:postId handler (routes/users.js, posts router, lines
1060-1114 of the concatenated file): look the post up (404), reject a
non-owner (403), `DELETE FROM posts WHERE id = $1` (the foreign keys
cascade-delete the post's likes and comments), then attempt the
Cloudinary deletion inside try/catch whose result is discarded, and
report success. -/
def deletePost (db : DB) (userId postId : Nat) (mediaDeleteFails : Bool) : DB × Resp :=
  match postById db postId with
  | none => (db, .notFound)
  | some p =>
    if p.user_id != userId then
      (db, .forbidden)
    else
      let db' : DB :=
        { db with
            posts := db.posts.filter (fun x => !(x.id == postId)),
            likes := db.likes.filter (fun l => !(l.post_id == postId)),
            comments := db.comments.filter (fun c => !(c.post_id == postId)) }
      let _cloudinaryOutcome := attemptMediaDelete mediaDeleteFails
      (db', .ok)

/-- Validation rule `createPostValidation` of routes/users.js: caption
optional, length at most 2200. -/
def captionValid (caption : Option String) : Bool :=
  match caption with
  | none => true
  | some c => c.length ≤ 2200

/-- POST / (create post) handler (routes/users.js, posts router, lines
767-849 of the concatenated file).  Order of operations: caption
validation, presence check for the image file, Cloudinary upload
(outcome passed in as `upload`; an error there is answered with the 500
media-failure response and no database write), then
`INSERT INTO posts (user_id, caption, image_url)`.  The third component
of the result records whether the Media Collaborator was invoked. -/
def createPost (db : DB) (userId : Nat) (caption : Option String)
    (file : Option Unit) (upload : Except Unit String) : DB × Resp × Bool :=
  if !captionValid caption then
    (db, .validationFailed, false)
  else
    match file with
    | none => (db, .imageRequired, false)
    | some _ =>
      match upload with
      | .error _ => (db, .mediaUploadFailed, true)
      | .ok imageUrl =>
        ({ db with
            posts := db.posts ++
              [⟨db.next_id, userId, caption.getD "", some imageUrl, none, 0, 0⟩],
            next_id := db.next_id + 1 },
          .created, true)

/-- The query `SELECT is_private FROM groups WHERE id = $1` as a single optional
row. -/
def groupById (db : DB) (groupId : Nat) : Option GroupRow :=
  db.groups.find? (fun g => g.id == groupId)

/-- Rows returned by
`SELECT ... FROM group_members WHERE group_id = $1 AND user_id = $2`. -/
def memberRowsFor (db : DB) (groupId userId : Nat) : List GroupMemberRow :=
  db.group_members.filter (fun m => m.group_id == groupId && m.user_id == userId)

/-- The stored `members_count` of a group, when the group exists. -/
def getMembersCount (db : DB) (groupId : Nat) : Option Int :=
  (groupById db groupId).map (fun g => g.members_count)

/-- POST / (create group) handler (routes/groups.js lines 51-98):
inside one transaction, insert the group row (members_count defaults to
0), insert the owner as an `admin` member, and increment
`members_count`. -/
def createGroup (db : DB) (ownerId : Nat) (name : String) (isPrivate : Bool) : DB × Resp :=
  let groupId := db.next_id
  ({ db with
      groups := db.groups ++ [⟨groupId, name, isPrivate, ownerId, 0 + 1⟩],
      group_members := db.group_members ++ [⟨groupId, ownerId, .admin⟩],
      next_id := db.next_id + 1 },
    .created)

/-- POST /:groupId/join handler (routes/groups.js lines 298-333): look
the group up (404), reject when `is_private` (403), then inside one
transaction `INSERT ... ON CONFLICT DO NOTHING` a `member` row and
increment `members_count` only when a row was actually inserted. -/
def joinGroup (db : DB) (userId groupId : Nat) : DB × Resp :=
  match groupById db groupId with
  | none => (db, .notFound)
  | some g =>
    if g.is_private then
      (db, .forbidden)
    else
      let inserted := (memberRowsFor db groupId userId).isEmpty
      if inserted then
        ({ db with
            group_members := db.group_members ++ [⟨groupId, userId, .member⟩],
            groups := db.groups.map (fun x =>
              if x.id == groupId then { x with members_count := x.members_count + 1 } else x) },
          .ok)
      else
        (db, .ok)

/-- Whether the requester holds the `admin` role in the group
(`SELECT role FROM group_members WHERE group_id = $1 AND user_id = $2`,
then `role === 'admin'`). -/
def isAdminOf (db : DB) (groupId userId : Nat) : Bool :=
  match (memberRowsFor db groupId userId).head? with
  | some m => m.role == .admin
  | none => false

/-- POST /:groupId/members handler (routes/groups.js lines 370-406):
admin check (403), then the same conflict-free insert and conditional
`members_count` increment as join, without the privacy check. -/
def addMember (db : DB) (requesterId groupId newUserId : Nat) : DB × Resp :=
  if !isAdminOf db groupId requesterId then
    (db, .forbidden)
  else
    let inserted := (memberRowsFor db groupId newUserId).isEmpty
    if inserted then
      ({ db with
          group_members := db.group_members ++ [⟨groupId, newUserId, .member⟩],
          groups := db.groups.map (fun x =>
            if x.id == groupId then { x with members_count := x.members_count + 1 } else x) },
        .created)
    else
      (db, .created)

/-- DELETE /:groupId/members/:memberId handler (routes/groups.js lines
438-470): allowed for an admin or for self-removal (403 otherwise);
delete the membership row (404 when none was deleted) and decrement
`members_count` with `GREATEST(members_count - 1, 0)`. -/
def removeMember (db : DB) (requesterId groupId memberId : Nat) : DB × Resp :=
  if !isAdminOf db groupId requesterId && memberId != requesterId then
    (db, .forbidden)
  else if (memberRowsFor db groupId memberId).isEmpty then
    (db, .notFound)
  else
    ({ db with
        group_members := db.group_members.filter (fun m =>
          !(m.group_id == groupId && m.user_id == memberId)),
        groups := db.groups.map (fun x =>
          if x.id == groupId then { x with members_count := max (x.members_count - 1) 0 } else x) },
      .ok)

/-- POST /:groupId/posts handler (routes/groups.js lines 572-612):
membership check (403), optional Cloudinary upload (500 on failure,
outcome passed in as `upload`), then
`INSERT INTO posts (user_id, caption, image_url, group_id)`.
The handler performs NO caption-length validation. -/
def createGroupPost (db : DB) (userId groupId : Nat) (caption : Option String)
    (file : Option Unit) (upload : Except Unit String) : DB × Resp :=
  if (memberRowsFor db groupId userId).isEmpty then
    (db, .forbidden)
  else
    match file with
    | none =>
      ({ db with
          posts := db.posts ++
            [⟨db.next_id, userId, caption.getD "", none, some groupId, 0, 0⟩],
          next_id := db.next_id + 1 },
        .created)
    | some _ =>
      match upload with
      | .error _ => (db, .mediaUploadFailed)
      | .ok imageUrl =>
        ({ db with
            posts := db.posts ++
              [⟨db.next_id, userId, caption.getD "", some imageUrl, some groupId, 0, 0⟩],
            next_id := db.next_id + 1 },
          .created)

/-- DELETE /:groupId/posts/:postId handler (routes/groups.js lines
708-750): look the post up scoped to the group (404), allow the author
or a group admin (403 otherwise), `DELETE FROM posts WHERE id = $1`
(cascading to likes/comments), then attempt the Cloudinary deletion
when an image URL is stored, inside try/catch whose result is
discarded, and report success. -/
def deleteGroupPost (db : DB) (userId groupId postId : Nat)
    (mediaDeleteFails : Bool) : DB × Resp :=
  match db.posts.find? (fun p => p.id == postId && p.group_id == some groupId) with
  | none => (db, .notFound)
  | some p =>
    if p.user_id != userId && !isAdminOf db groupId userId then
      (db, .forbidden)
    else
      let db' : DB :=
        { db with
            posts := db.posts.filter (fun x => !(x.id == postId)),
            likes := db.likes.filter (fun l => !(l.post_id == postId)),
            comments := db.comments.filter (fun c => !(c.post_id == postId)) }
      let _cloudinaryOutcome :=
        match p.image_url with
        | some _ => some (attemptMediaDelete mediaDeleteFails)
        | none => none
      (db', .ok)

/-- A bearer access token as the middleware sees it: the subject id it
carries, and whether `jwt.verify` against the access-token secret
succeeds (signature valid and not expired). -/
structure AccessToken where
  userId : Nat
  sigValid : Bool
  expired : Bool
  deriving Repr, DecidableEq

/-- Function `verifyToken` of middleware/auth.js: `jwt.verify` returns the
decoded payload or, on any verification error, null. -/
def verifyToken (t : AccessToken) : Option Nat :=
  if t.sigValid && !t.expired then some t.userId else none

/-- The query `SELECT ... FROM users WHERE id = $1` as a single optional row. -/
def userById (db : DB) (userId : Nat) : Option UserRow :=
  db.users.find? (fun u => u.id == userId)

/-- Outcome of the session middleware, tagged by the distinct responses
of `authenticateToken` in middleware/auth.js. -/
inductive AuthOutcome where
  | unauthenticated
  | invalidToken
  | userNotFound
  | accountDisabled
  | authenticated (u : UserRow)
  deriving Repr, DecidableEq

/-- HTTP status sent for each middleware outcome (200 for the pass-through
case). -/
def AuthOutcome.status : AuthOutcome → Nat
  | .unauthenticated => 401
  | .invalidToken => 403
  | .userNotFound => 403
  | .accountDisabled => 403
  | .authenticated _ => 200

/-- Middleware `authenticateToken` of middleware/auth.js (reproduced in
src/IMAGE_UPLOAD_IMPLEMENTATION.md lines 353-405): extract the bearer
token (401 when absent), verify it (403 when invalid or expired),
resolve the subject id to a user row (403 when missing), reject a
deactivated account (403), otherwise attach the user. -/
def authenticateToken (db : DB) (header : Option AccessToken) : AuthOutcome :=
  match header with
  | none => .unauthenticated
  | some t =>
    match verifyToken t with
    | none => .invalidToken
    | some uid =>
      match userById db uid with
      | none => .userNotFound
      | some u =>
        if !u.is_active then .accountDisabled
        else .authenticated u

/-- Middleware `optionalAuth` of middleware/auth.js (reproduced in
src/IMAGE_UPLOAD_IMPLEMENTATION.md lines 408-433): same extraction,
verification and user resolution, but every failure just proceeds
without attaching a user. -/
def optionalAuth (db : DB) (header : Option AccessToken) : Option UserRow :=
  match header with
  | none => none
  | some t =>
    match verifyToken t with
    | none => none
    | some uid =>
      match userById db uid with
      | none => none
      | some u => if u.is_active then some u else none

/-- Outcome categories of the spec's Session Middleware contract
(spec section 4.2). -/
inductive SpecAuthOutcome where
  | unauthenticated
  | invalidToken
  | accountDisabled
  | authenticated (u : UserRow)
  deriving Repr, DecidableEq

/-- The spec's classification of a middleware outcome: a subject id that
resolves to no user row is treated as an invalid credential
(`InvalidToken`), not as a distinct not-found case. -/
def AuthOutcome.specClass : AuthOutcome → SpecAuthOutcome
  | .unauthenticated => .unauthenticated
  | .invalidToken => .invalidToken
  | .userNotFound => .invalidToken
  | .accountDisabled => .accountDisabled
  | .authenticated u => .authenticated u

/-- The Session Middleware contract exactly as the spec words it
(section 4.2): absent bearer token → Unauthenticated; signature/expiry
failure → InvalidToken; subject id resolving to no User row →
InvalidToken; `is_active` false → AccountDisabled; otherwise the
resolved user is attached. -/
def sessionSpec (db : DB) (header : Option AccessToken) : SpecAuthOutcome :=
  match header with
  | none => .unauthenticated
  | some t =>
    if !(t.sigValid && !t.expired) then .invalidToken
    else
      match userById db t.userId with
      | none => .invalidToken
      | some u =>
        if !u.is_active then .accountDisabled
        else .authenticated u

/-- A presented refresh token string: the subject it carries, a serial
identifying the exact signed string, and the result of `jwt.verify`
against the refresh secret. -/
structure RefreshTok where
  userId : Nat
  serial : Nat
  sigValid : Bool
  jwtExpired : Bool
  deriving Repr, DecidableEq

/-- Result of the refresh endpoint: either a new token pair (identified
by the serial of the newly stored refresh token) or the InvalidToken
failure. -/
inductive RefreshResult where
  | rotated (newSerial : Nat)
  | invalidToken
  deriving Repr, DecidableEq

/-- Modelled from the spec: routes/auth.js is not among the sources, so
the `POST /auth/refresh` handler is taken from spec section 4.1 —
verify the presented refresh token's signature and expiry
(`InvalidToken` on failure), require a matching non-expired
`refresh_tokens` row (`InvalidToken` when missing), and on success
issue a new token pair and invalidate the presented token (rotation),
replacing its stored row with one for the fresh token string. -/
def refresh (db : DB) (now : Nat) (t : RefreshTok) : DB × RefreshResult :=
  if !t.sigValid || t.jwtExpired then
    (db, .invalidToken)
  else
    match db.refresh_tokens.find? (fun r => r.token == t.serial && now < r.expires_at) with
    | none => (db, .invalidToken)
    | some row =>
      let fresh := db.next_id
      ({ db with
          refresh_tokens :=
            db.refresh_tokens.filter (fun r => !(r.token == t.serial)) ++
              [⟨row.user_id, fresh, now + 7 * 24 * 60 * 60⟩],
          next_id := db.next_id + 1 },
        .rotated fresh)

/-- Every stored refresh-token serial is below the generator counter, so
a freshly generated serial never collides with a stored one. -/
def serialsFresh (db : DB) : Bool :=
  db.refresh_tokens.all (fun r => r.token < db.next_id)

/-- Observable steps of a request handler, for the ordering claims about
media uploads and database resources.  `pooledQuery` is a
`pool.query(...)` call, which checks a connection out and returns it
within the call; `acquireConn`/`releaseConn` delimit an explicitly held
`pool.connect()` client; `beginTxn`/`commitTxn` delimit a transaction
on that client. -/
inductive Step where
  | acquireConn
  | releaseConn
  | beginTxn
  | commitTxn
  | clientQuery
  | pooledQuery
  | mediaUpload
  deriving Repr, DecidableEq

/-- Steps of the POST / (create post) handler of routes/users.js on its
successful path: validation (no I/O), Cloudinary upload, then a single
`pool.query` INSERT. -/
def createPostSteps : List Step :=
  [.mediaUpload, .pooledQuery]

/-- Steps of the POST /:groupId/posts handler of routes/groups.js on
its successful path with an image: `pool.connect()` at the top of the
handler, the membership-check query on that client, the Cloudinary
upload, the INSERT on the same client, and `client.release()` in the
`finally` block. -/
def createGroupPostSteps : List Step :=
  [.acquireConn, .clientQuery, .mediaUpload, .clientQuery, .releaseConn]

/-- Whether some `mediaUpload` step happens while at least `n` pooled
connections are checked out (`n` counts the connections already held
when the trace starts). -/
def connHeldDuringUpload : List Step → Nat → Bool
  | [], _ => false
  | .acquireConn :: rest, n => connHeldDuringUpload rest (n + 1)
  | .releaseConn :: rest, n => connHeldDuringUpload rest (n - 1)
  | .mediaUpload :: rest, n => decide (0 < n) || connHeldDuringUpload rest n
  | _ :: rest, n => connHeldDuringUpload rest n

/-- Whether some `mediaUpload` step happens while at least one
transaction is open. -/
def txnOpenDuringUpload : List Step → Nat → Bool
  | [], _ => false
  | .beginTxn :: rest, n => txnOpenDuringUpload rest (n + 1)
  | .commitTxn :: rest, n => txnOpenDuringUpload rest (n - 1)
  | .mediaUpload :: rest, n => decide (0 < n) || txnOpenDuringUpload rest n
  | _ :: rest, n => txnOpenDuringUpload rest n

/-- GET /user/:username posts query of routes/users.js (posts router,
lines 1171-1180 of the concatenated file): rows selected by
`FROM posts p JOIN users u ON p.user_id = u.id WHERE p.user_id = $1`
(order and pagination are applied to this set afterwards).  No
condition mentions `group_id`. -/
def userPostsQuery (db : DB) (userId : Nat) : List PostRow :=
  db.posts.filter (fun p =>
    p.user_id == userId && db.users.any (fun u => u.id == p.user_id))

/-- The query `SELECT COUNT(*) as count FROM posts WHERE user_id = $1`, the posts
count shown on the public profile (routes/users.js lines 442-445). -/
def postsCountQuery (db : DB) (userId : Nat) : Nat :=
  (db.posts.filter (fun p => p.user_id == userId)).length

/-- GET /feed/timeline query of routes/users.js (posts router, lines
1261-1275 of the concatenated file): rows selected by
`WHERE p.user_id IN (SELECT following_id FROM followers WHERE
follower_id = $1 UNION SELECT $1)` joined with the author row.  No
condition mentions `group_id`. -/
def feedQuery (db : DB) (viewerId : Nat) : List PostRow :=
  db.posts.filter (fun p =>
    (db.followers.any (fun f => f.follower_id == viewerId && f.following_id == p.user_id)
      || p.user_id == viewerId)
    && db.users.any (fun u => u.id == p.user_id))

theorem find?_map_eq {α : Type} (f : α → α) (p : α → Bool)
    (hf : ∀ x, p (f x) = p x) :
    ∀ l : List α, (l.map f).find? p = (l.find? p).map f := by
  intro l
  induction l with
  | nil => rfl
  | cons a t ih =>
    simp only [List.map_cons, List.find?]
    rw [hf a]
    cases h : p a
    · simpa using ih
    · simp

theorem filter_map_eq {α : Type} (f : α → α) (p : α → Bool)
    (hf : ∀ x, p (f x) = p x) :
    ∀ l : List α, (l.map f).filter p = (l.filter p).map f := by
  intro l
  induction l with
  | nil => rfl
  | cons a t ih =>
    simp only [List.map_cons, List.filter]
    rw [hf a]
    cases h : p a
    · simpa using ih
    · simp [ih]

/-- Concrete store for the deleteComment scenario: alice owns posts 1
and 2; comment 10 belongs to post 1; every counter matches its
relation. -/
def dbC1 : DB :=
  { users := [⟨1, "alice", true⟩],
    posts := [⟨1, 1, "", none, none, 0, 1⟩, ⟨2, 1, "", none, none, 0, 0⟩],
    likes := [],
    comments := [⟨10, 1, 1, "hi"⟩],
    followers := [],
    groups := [],
    group_members := [],
    refresh_tokens := [],
    next_id := 11 }

/-- C1: the counter invariant does NOT survive every exposed operation.
`DELETE /:postId/comments/:commentId` decrements the `comments_count`
of the post named in the URL, not of the post the comment belongs to
(it reads the comment's `post_id` and then ignores it).  Deleting
comment 10 (which belongs to post 1) through the URL of post 2
succeeds, yet afterwards post 1 still carries `comments_count = 1`
with zero comment rows backing it. -/
theorem claim_C1_deleteComment_breaks_counter_invariant :
    countersOk dbC1 = true ∧
    (deleteComment dbC1 1 2 10).2 = Resp.ok ∧
    countersOk (deleteComment dbC1 1 2 10).1 = false := by decide

/-- The `likes_count` bump of the like handler preserves the post id it
filters on. -/
theorem likeBump_pred (p : Nat) :
    ∀ x : PostRow,
      ((if x.id == p then { x with likes_count := x.likes_count + 1 } else x).id == p)
        = (x.id == p) := by
  intro x
  by_cases hx : x.id == p
  · simp [hx]
  · simp [hx]

/-- C3: the like operation is an atomic unit.  A missing post answers
404 with the store untouched; an existing like answers 409 Conflict
with the store untouched; otherwise exactly one Like row is inserted
and the post's `likes_count` rises by exactly 1, and a second identical
call answers 409 Conflict leaving the store unchanged, so the counter
rises exactly once in total.  (Error paths return the store unchanged,
which is the sequential shadow of the handler's single
BEGIN/COMMIT/ROLLBACK transaction.) -/
theorem claim_C3_like_atomic (db : DB) (u p : Nat) :
    ((postsWithId db p).isEmpty = true → likePost db u p = (db, Resp.notFound)) ∧
    ((postsWithId db p).isEmpty = false → (likeRowsFor db u p).isEmpty = false →
      likePost db u p = (db, Resp.conflict) ∧ Resp.conflict.status = 409) ∧
    ((postsWithId db p).isEmpty = false → (likeRowsFor db u p).isEmpty = true →
      (likePost db u p).2 = Resp.ok ∧
      (likePost db u p).1.likes.length = db.likes.length + 1 ∧
      likesOf (likePost db u p).1 p = likesOf db p + 1 ∧
      getLikesCount (likePost db u p).1 p = (getLikesCount db p).map (fun n => n + 1) ∧
      likePost (likePost db u p).1 u p = ((likePost db u p).1, Resp.conflict)) := by
  refine ⟨?_, ?_, ?_⟩
  · intro h
    simp [likePost, h]
  · intro h1 h2
    exact ⟨by simp [likePost, h1, h2], rfl⟩
  · intro h1 h2
    have hres : likePost db u p =
        ({ db with
            likes := db.likes ++ [⟨db.next_id, u, p⟩],
            next_id := db.next_id + 1,
            posts := db.posts.map (fun x =>
              if x.id == p then { x with likes_count := x.likes_count + 1 } else x) },
          Resp.ok) := by
      simp [likePost, h1, h2]
    refine ⟨by rw [hres], ?_, ?_, ?_, ?_⟩
    · rw [hres]
      simp
    · rw [hres]
      simp [likesOf, List.filter_append]
    · rw [hres]
      simp only [getLikesCount, postById]
      rw [find?_map_eq _ _ (likeBump_pred p)]
      cases hq : db.posts.find? (fun x => x.id == p) with
      | none => simp
      | some q =>
        have hpq := List.find?_some hq
        have hpq' : (q.id == p) = true := hpq
        have hpq2 : q.id = p := by simpa using hpq'
        simp [hpq2]
    · have hposts : (postsWithId (likePost db u p).1 p).isEmpty = false := by
        rw [hres]
        simp only [postsWithId]
        rw [filter_map_eq _ _ (likeBump_pred p)]
        cases hl : postsWithId db p with
        | nil => rw [hl] at h1; simp at h1
        | cons a t =>
          rw [show db.posts.filter (fun x => x.id == p) = a :: t from hl]
          simp
      have hlikes : (likeRowsFor (likePost db u p).1 u p).isEmpty = false := by
        rw [hres]
        simp [likeRowsFor, List.filter_append]
      set db1 := (likePost db u p).1 with hdb1
      simp [likePost, hposts, hlikes]

/-- Concrete store for the like witness: bob likes alice's post 1. -/
def dbC3 : DB :=
  { users := [⟨1, "alice", true⟩, ⟨2, "bob", true⟩],
    posts := [⟨1, 1, "", none, none, 0, 0⟩],
    likes := [],
    comments := [],
    followers := [],
    groups := [],
    group_members := [],
    refresh_tokens := [],
    next_id := 2 }

theorem claim_C3_like_atomic_witness :
    likePost dbC3 2 99 = (dbC3, Resp.notFound) ∧
    (likePost dbC3 2 1).2 = Resp.ok ∧
    likesOf (likePost dbC3 2 1).1 1 = likesOf dbC3 1 + 1 ∧
    likePost (likePost dbC3 2 1).1 2 1 = ((likePost dbC3 2 1).1, Resp.conflict) := by
  refine ⟨(claim_C3_like_atomic dbC3 2 99).1 (by decide), ?_, ?_, ?_⟩
  · exact ((claim_C3_like_atomic dbC3 2 1).2.2 (by decide) (by decide)).1
  · exact ((claim_C3_like_atomic dbC3 2 1).2.2 (by decide) (by decide)).2.2.1
  · exact ((claim_C3_like_atomic dbC3 2 1).2.2 (by decide) (by decide)).2.2.2.2

/-- The `members_count` bump of the join handler preserves the group id
it filters on. -/
theorem memberBump_pred (g : Nat) :
    ∀ x : GroupRow,
      ((if x.id == g then { x with members_count := x.members_count + 1 } else x).id == g)
        = (x.id == g) := by
  intro x
  by_cases hx : x.id == g
  · simp [hx]
  · simp [hx]

/-- C5: joining a private group is rejected with 403; joining a public
group is idempotent — a repeat join is a harmless no-op leaving the
store unchanged, and `members_count` rises only when a membership row
was actually inserted, so two identical joins leave exactly one
GroupMember row and a counter one higher than before. -/
theorem claim_C5_join_idempotent (db : DB) (u g : Nat) :
    (∀ G, groupById db g = some G → G.is_private = true →
      joinGroup db u g = (db, Resp.forbidden) ∧ Resp.forbidden.status = 403) ∧
    (∀ G, groupById db g = some G → G.is_private = false →
      (memberRowsFor db g u).isEmpty = false → joinGroup db u g = (db, Resp.ok)) ∧
    (∀ G, groupById db g = some G → G.is_private = false →
      (memberRowsFor db g u).isEmpty = true →
      (joinGroup db u g).2 = Resp.ok ∧
      (memberRowsFor (joinGroup db u g).1 g u).length = 1 ∧
      membersOf (joinGroup db u g).1 g = membersOf db g + 1 ∧
      getMembersCount (joinGroup db u g).1 g = (getMembersCount db g).map (fun n => n + 1) ∧
      joinGroup (joinGroup db u g).1 u g = ((joinGroup db u g).1, Resp.ok)) := by
  refine ⟨?_, ?_, ?_⟩
  · intro G hG hpriv
    exact ⟨by simp [joinGroup, hG, hpriv], rfl⟩
  · intro G hG hpriv hmem
    simp [joinGroup, hG, hpriv, hmem]
  · intro G hG hpriv hmem
    have hmem' : memberRowsFor db g u = [] := by simpa using hmem
    have hres : joinGroup db u g =
        ({ db with
            group_members := db.group_members ++ [⟨g, u, .member⟩],
            groups := db.groups.map (fun x =>
              if x.id == g then { x with members_count := x.members_count + 1 } else x) },
          Resp.ok) := by
      simp [joinGroup, hG, hpriv, hmem]
    refine ⟨by rw [hres], ?_, ?_, ?_, ?_⟩
    · rw [hres]
      simp only [memberRowsFor, List.filter_append, List.length_append]
      have hmem2 : db.group_members.filter (fun m => m.group_id == g && m.user_id == u) = [] := by
        have hm := hmem
        simp only [memberRowsFor] at hm
        exact List.isEmpty_iff.mp hm
      rw [hmem2]
      simp
    · rw [hres]
      simp [membersOf, List.filter_append]
    · rw [hres]
      simp only [getMembersCount, groupById]
      rw [find?_map_eq _ _ (memberBump_pred g)]
      cases hq : db.groups.find? (fun x => x.id == g) with
      | none => simp
      | some q =>
        have hpq := List.find?_some hq
        have hpq' : (q.id == g) = true := hpq
        have hpq2 : q.id = g := by simpa using hpq'
        simp [hpq2]
    · have hG1 : groupById (joinGroup db u g).1 g =
          some { G with members_count := G.members_count + 1 } := by
        rw [hres]
        simp only [groupById]
        rw [find?_map_eq _ _ (memberBump_pred g)]
        rw [show db.groups.find? (fun x => x.id == g) = some G from hG]
        have hGid := List.find?_some hG
        have hGid' : (G.id == g) = true := hGid
        have hGid2 : G.id = g := by simpa using hGid'
        simp [hGid2]
      have hmem1 : (memberRowsFor (joinGroup db u g).1 g u).isEmpty = false := by
        rw [hres]
        simp [memberRowsFor, List.filter_append]
      set db1 := (joinGroup db u g).1 with hdb1
      simp [joinGroup, hG1, hpriv, hmem1]

/-- Concrete store for the join witness: alice owns public group 3 and
private group 4; bob joins. -/
def dbC5 : DB :=
  { users := [⟨1, "alice", true⟩, ⟨2, "bob", true⟩],
    posts := [],
    likes := [],
    comments := [],
    followers := [],
    groups := [⟨3, "pub", false, 1, 1⟩, ⟨4, "priv", true, 1, 1⟩],
    group_members := [⟨3, 1, .admin⟩, ⟨4, 1, .admin⟩],
    refresh_tokens := [],
    next_id := 5 }

theorem claim_C5_join_idempotent_witness :
    joinGroup dbC5 2 4 = (dbC5, Resp.forbidden) ∧
    (joinGroup dbC5 2 3).2 = Resp.ok ∧
    membersOf (joinGroup dbC5 2 3).1 3 = membersOf dbC5 3 + 1 ∧
    joinGroup (joinGroup dbC5 2 3).1 2 3 = ((joinGroup dbC5 2 3).1, Resp.ok) := by
  refine ⟨((claim_C5_join_idempotent dbC5 2 4).1 ⟨4, "priv", true, 1, 1⟩ (by decide) rfl).1,
    ?_, ?_, ?_⟩
  · exact ((claim_C5_join_idempotent dbC5 2 3).2.2 ⟨3, "pub", false, 1, 1⟩
      (by decide) rfl (by decide)).1
  · exact ((claim_C5_join_idempotent dbC5 2 3).2.2 ⟨3, "pub", false, 1, 1⟩
      (by decide) rfl (by decide)).2.2.1
  · exact ((claim_C5_join_idempotent dbC5 2 3).2.2 ⟨3, "pub", false, 1, 1⟩
      (by decide) rfl (by decide)).2.2.2.2

/-- C2: refresh-token rotation.  A failed signature/expiry check or a
missing matching non-expired stored row answers InvalidToken with the
store untouched; a successful refresh rotates the presented token, so
presenting the same token string again (at any later time) answers
InvalidToken.  The freshness side condition says stored serials stay
below the generator counter, which the generator maintains. -/
theorem claim_C2_refresh_rotation (db : DB) (now : Nat) (t : RefreshTok) :
    ((t.sigValid = false ∨ t.jwtExpired = true) →
      refresh db now t = (db, RefreshResult.invalidToken)) ∧
    (db.refresh_tokens.find? (fun r => r.token == t.serial && now < r.expires_at) = none →
      refresh db now t = (db, RefreshResult.invalidToken)) ∧
    (serialsFresh db = true →
      ∀ db' s, refresh db now t = (db', RefreshResult.rotated s) →
        ∀ now2, refresh db' now2 t = (db', RefreshResult.invalidToken)) := by
  refine ⟨?_, ?_, ?_⟩
  · intro h
    rcases h with h | h
    · simp [refresh, h]
    · simp [refresh, h]
  · intro h
    by_cases hg : (!t.sigValid || t.jwtExpired) = true
    · simp [refresh, hg]
    · have hg' : (!t.sigValid || t.jwtExpired) = false := by
        simpa using hg
      simp [refresh, hg', h]
  · intro hfresh db' s heq now2
    have hfresh' : ∀ r ∈ db.refresh_tokens, r.token < db.next_id := by
      simpa [serialsFresh] using hfresh
    by_cases hg : (!t.sigValid || t.jwtExpired) = true
    · simp [refresh, hg] at heq
    · have hg' : (!t.sigValid || t.jwtExpired) = false := by
        simpa using hg
      cases hf : db.refresh_tokens.find? (fun r => r.token == t.serial && now < r.expires_at) with
      | none => simp [refresh, hg', hf] at heq
      | some row =>
        have hrowmem : row ∈ db.refresh_tokens := List.mem_of_find?_eq_some hf
        have hrowp := List.find?_some hf
        have hrowp' : (row.token == t.serial && decide (now < row.expires_at)) = true := hrowp
        have hserial : row.token = t.serial := by
          have := (Bool.and_eq_true _ _).mp hrowp'
          simpa using this.1
        have hlt : t.serial < db.next_id := hserial ▸ hfresh' row hrowmem
        have hnewser : (db.next_id == t.serial) = false := by
          simp only [beq_eq_false_iff_ne, ne_eq]
          omega
        simp only [refresh, hg', Bool.false_eq_true, if_false, hf] at heq
        have hdb' : db' =
            { db with
                refresh_tokens :=
                  db.refresh_tokens.filter (fun r => !(r.token == t.serial)) ++
                    [⟨row.user_id, db.next_id, now + 7 * 24 * 60 * 60⟩],
                next_id := db.next_id + 1 } := by
          have := congrArg Prod.fst heq
          simpa using this.symm
        have hnone : db'.refresh_tokens.find?
            (fun r => r.token == t.serial && now2 < r.expires_at) = none := by
          rw [hdb']
          simp only [List.find?_eq_none]
          intro x hx
          rcases List.mem_append.mp hx with hx | hx
          · have hxf := (List.mem_filter.mp hx).2
            simp only [Bool.not_eq_eq_eq_not, Bool.not_true] at hxf
            simp [hxf]
          · have hxeq : x = ⟨row.user_id, db.next_id, now + 7 * 24 * 60 * 60⟩ := by
              simpa using hx
            subst hxeq
            simp [hnewser]
        simp [refresh, hg', hnone]

/-- Concrete store for the refresh witness: one stored refresh token
with serial 5 for alice, expiring at time 100. -/
def dbC2 : DB :=
  { users := [⟨1, "alice", true⟩],
    posts := [],
    likes := [],
    comments := [],
    followers := [],
    groups := [],
    group_members := [],
    refresh_tokens := [⟨1, 5, 100⟩],
    next_id := 6 }

/-- The presented refresh token string matching serial 5. -/
def tC2 : RefreshTok := ⟨1, 5, true, false⟩

theorem claim_C2_refresh_rotation_witness :
    (refresh dbC2 50 tC2).2 = RefreshResult.rotated 6 ∧
    refresh (refresh dbC2 50 tC2).1 50 tC2 =
      ((refresh dbC2 50 tC2).1, RefreshResult.invalidToken) := by
  refine ⟨by decide, ?_⟩
  exact (claim_C2_refresh_rotation dbC2 50 tC2).2.2 (by decide)
    (refresh dbC2 50 tC2).1 6 (by decide) 50

/-- C4: the session middleware resolves a request exactly in the
spec's order — absent bearer token → Unauthenticated (401), failed
signature/expiry verification → InvalidToken (403), unresolvable
subject id → the invalid-credential class (403, never 404), inactive
account → AccountDisabled (403) — and the optional-auth variant
performs the same resolution but proceeds anonymously on every
failure. -/
theorem claim_C4_session_middleware (db : DB) (header : Option AccessToken) :
    (authenticateToken db header).specClass = sessionSpec db header ∧
    ((authenticateToken db header).status == 404) = false ∧
    AuthOutcome.unauthenticated.status = 401 ∧
    AuthOutcome.invalidToken.status = 403 ∧
    AuthOutcome.userNotFound.status = 403 ∧
    AuthOutcome.accountDisabled.status = 403 ∧
    optionalAuth db header =
      (match authenticateToken db header with
        | .authenticated u => some u
        | _ => none) := by
  refine ⟨?_, ?_, rfl, rfl, rfl, rfl, ?_⟩
  · cases header with
    | none => rfl
    | some t =>
      by_cases hs : (t.sigValid && !t.expired) = true
      · cases hu : userById db t.userId with
        | none =>
          simp [authenticateToken, verifyToken, sessionSpec, hs, hu, AuthOutcome.specClass]
        | some u =>
          by_cases ha : u.is_active = true
          · simp [authenticateToken, verifyToken, sessionSpec, hs, hu, ha,
              AuthOutcome.specClass]
          · have ha' : u.is_active = false := by simpa using ha
            simp [authenticateToken, verifyToken, sessionSpec, hs, hu, ha',
              AuthOutcome.specClass]
      · have hs' : (t.sigValid && !t.expired) = false := by simpa using hs
        simp [authenticateToken, verifyToken, sessionSpec, hs', AuthOutcome.specClass]
  · cases header with
    | none => rfl
    | some t =>
      by_cases hs : (t.sigValid && !t.expired) = true
      · cases hu : userById db t.userId with
        | none => simp [authenticateToken, verifyToken, hs, hu, AuthOutcome.status]
        | some u =>
          by_cases ha : u.is_active = true
          · simp [authenticateToken, verifyToken, hs, hu, ha, AuthOutcome.status]
          · have ha' : u.is_active = false := by simpa using ha
            simp [authenticateToken, verifyToken, hs, hu, ha', AuthOutcome.status]
      · have hs' : (t.sigValid && !t.expired) = false := by simpa using hs
        simp [authenticateToken, verifyToken, hs', AuthOutcome.status]
  · cases header with
    | none => rfl
    | some t =>
      by_cases hs : (t.sigValid && !t.expired) = true
      · cases hu : userById db t.userId with
        | none => simp [authenticateToken, optionalAuth, verifyToken, hs, hu]
        | some u =>
          by_cases ha : u.is_active = true
          · simp [authenticateToken, optionalAuth, verifyToken, hs, hu, ha]
          · have ha' : u.is_active = false := by simpa using ha
            simp [authenticateToken, optionalAuth, verifyToken, hs, hu, ha']
      · have hs' : (t.sigValid && !t.expired) = false := by simpa using hs
        simp [authenticateToken, optionalAuth, verifyToken, hs']

/-- A caption one character beyond the 2200-character bound. -/
def longCaption : String := String.mk (List.replicate 2201 'a')

theorem longCaption_length : longCaption.length = 2201 := by
  unfold longCaption
  rw [String.length_mk, List.length_replicate]

/-- Concrete store for the caption-validation scenario: bob is a member
of group 5. -/
def dbC6 : DB :=
  { users := [⟨1, "bob", true⟩],
    posts := [],
    likes := [],
    comments := [],
    followers := [],
    groups := [⟨5, "g", false, 1, 1⟩],
    group_members := [⟨5, 1, .member⟩],
    refresh_tokens := [],
    next_id := 6 }

/-- C6 counterexample: the group-scoped post-creation handler performs
no caption-length validation, so a 2201-character caption is accepted
and a Post row carrying it is inserted. -/
theorem claim_C6_counterexample :
    2200 < longCaption.length ∧
    (createGroupPost dbC6 1 5 (some longCaption) none (Except.ok "u")).2 = Resp.created ∧
    PostRow.mk 6 1 longCaption none (some 5) 0 0 ∈
      (createGroupPost dbC6 1 5 (some longCaption) none (Except.ok "u")).1.posts := by
  refine ⟨by rw [longCaption_length]; norm_num, rfl, ?_⟩
  exact List.Mem.head _

/-- C6 amended: only the top-level createPost validates the caption —
a caption longer than 2200 characters is rejected there with
ValidationFailed before the Media Collaborator is invoked and before
any database write; the group-scoped handler performs no caption-length
validation and inserts the Post row whatever the caption's length. -/
theorem claim_C6_caption_validation (db : DB) (u g : Nat) (c : String)
    (file : Option Unit) (upload : Except Unit String) :
    (2200 < c.length →
      createPost db u (some c) file upload = (db, Resp.validationFailed, false)) ∧
    ((memberRowsFor db g u).isEmpty = false →
      (createGroupPost db u g (some c) none upload).1.posts =
        db.posts ++ [⟨db.next_id, u, c, none, some g, 0, 0⟩] ∧
      (createGroupPost db u g (some c) none upload).2 = Resp.created) := by
  constructor
  · intro h
    have hv : captionValid (some c) = false := by
      simp [captionValid]
      omega
    simp [createPost, hv]
  · intro hm
    constructor
    · simp [createGroupPost, hm]
    · simp [createGroupPost, hm]

theorem claim_C6_caption_validation_witness :
    createPost dbC6 1 (some longCaption) none (Except.ok "u") =
      (dbC6, Resp.validationFailed, false) ∧
    (createGroupPost dbC6 1 5 (some longCaption) none (Except.ok "u")).2 = Resp.created := by
  constructor
  · exact (claim_C6_caption_validation dbC6 1 5 longCaption none (Except.ok "u")).1
      (by rw [longCaption_length]; norm_num)
  · exact ((claim_C6_caption_validation dbC6 1 5 longCaption none (Except.ok "u")).2
      (by decide)).2

/-- C7: when the Media Collaborator errors during createPost, the
request fails with the 500 media-failure response and the database is
left exactly as it was — the Post insert never happens (the upload is
attempted, as the third component records). -/
theorem claim_C7_media_failure_no_db_write (db : DB) (u : Nat) (caption : Option String) :
    captionValid caption = true →
    createPost db u caption (some ()) (Except.error ()) = (db, Resp.mediaUploadFailed, true) ∧
    Resp.mediaUploadFailed.status = 500 := by
  intro h
  exact ⟨by simp [createPost, h], rfl⟩

theorem claim_C7_media_failure_no_db_write_witness :
    createPost dbC3 1 (some "hi") (some ()) (Except.error ()) =
      (dbC3, Resp.mediaUploadFailed, true) :=
  ((claim_C7_media_failure_no_db_write dbC3 1 (some "hi")) (by decide)).1

/-- C9 counterexample: the group-post creation handler checks a client
out of the pool before its membership query and holds it across the
Cloudinary upload, so the claim that no pooled connection is ever held
across a media upload fails on that handler. -/
theorem claim_C9_counterexample :
    connHeldDuringUpload createGroupPostSteps 0 = true ∧
    Step.mediaUpload ∈ createGroupPostSteps := by decide

/-- C9 amended: in top-level createPost the upload precedes all
database work, with no transaction open and no pooled connection held
across it; the group-post handler opens no transaction across the
upload either, but it does hold a checked-out pooled connection across
the upload. -/
theorem claim_C9_upload_ordering :
    connHeldDuringUpload createPostSteps 0 = false ∧
    txnOpenDuringUpload createPostSteps 0 = false ∧
    txnOpenDuringUpload createGroupPostSteps 0 = false ∧
    connHeldDuringUpload createGroupPostSteps 0 = true := by decide

/-- C8: when the owner deletes a post (top-level or group-scoped) and
the Media Collaborator's image deletion fails, the failure is ignored:
the response is the same success as when it works, the Post row is
gone, and its likes and comments are gone by cascade — nothing is
rolled back and no error reaches the caller. -/
theorem claim_C8_media_delete_swallowed (db : DB) (u p g : Nat) :
    (∀ P, postById db p = some P → P.user_id = u → ∀ mf : Bool,
      deletePost db u p mf = deletePost db u p true ∧
      (deletePost db u p mf).2 = Resp.ok ∧
      postById (deletePost db u p mf).1 p = none ∧
      likesOf (deletePost db u p mf).1 p = 0 ∧
      commentsOf (deletePost db u p mf).1 p = 0) ∧
    (∀ P, db.posts.find? (fun x => x.id == p && x.group_id == some g) = some P →
      P.user_id = u → ∀ mf : Bool,
      deleteGroupPost db u g p mf = deleteGroupPost db u g p true ∧
      (deleteGroupPost db u g p mf).2 = Resp.ok ∧
      postById (deleteGroupPost db u g p mf).1 p = none) := by
  constructor
  · intro P hP hPu mf
    have hown : (P.user_id != u) = false := by
      simp [hPu]
    have hres : ∀ b : Bool, deletePost db u p b =
        ({ db with
            posts := db.posts.filter (fun x => !(x.id == p)),
            likes := db.likes.filter (fun l => !(l.post_id == p)),
            comments := db.comments.filter (fun c => !(c.post_id == p)) },
          Resp.ok) := by
      intro b
      simp [deletePost, hP, hown]
    refine ⟨by rw [hres, hres], by rw [hres], ?_, ?_, ?_⟩
    · rw [hres]
      simp only [postById, List.find?_eq_none]
      intro x hx
      have hxp := (List.mem_filter.mp hx).2
      simp only [Bool.not_eq_eq_eq_not, Bool.not_true] at hxp
      simp [hxp]
    · rw [hres]
      simp [likesOf, List.filter_filter]
    · rw [hres]
      simp [commentsOf, List.filter_filter]
  · intro P hP hPu mf
    have hown : (P.user_id != u) = false := by
      simp [hPu]
    have hres : ∀ b : Bool, deleteGroupPost db u g p b =
        ({ db with
            posts := db.posts.filter (fun x => !(x.id == p)),
            likes := db.likes.filter (fun l => !(l.post_id == p)),
            comments := db.comments.filter (fun c => !(c.post_id == p)) },
          Resp.ok) := by
      intro b
      simp [deleteGroupPost, hP, hown]
    refine ⟨by rw [hres, hres], by rw [hres], ?_⟩
    rw [hres]
    simp only [postById, List.find?_eq_none]
    intro x hx
    have hxp := (List.mem_filter.mp hx).2
    simp only [Bool.not_eq_eq_eq_not, Bool.not_true] at hxp
    simp [hxp]

/-- Concrete store for the delete witness: alice's post 1 carries a
like and a comment; post 7 lives in group 5. -/
def dbC8 : DB :=
  { users := [⟨1, "alice", true⟩, ⟨2, "bob", true⟩],
    posts := [⟨1, 1, "", some "url1", none, 1, 1⟩, ⟨7, 1, "", some "url7", some 5, 0, 0⟩],
    likes := [⟨20, 2, 1⟩],
    comments := [⟨21, 2, 1, "hey"⟩],
    followers := [],
    groups := [⟨5, "g", false, 1, 1⟩],
    group_members := [⟨5, 1, .admin⟩],
    refresh_tokens := [],
    next_id := 30 }

theorem claim_C8_media_delete_swallowed_witness :
    deletePost dbC8 1 1 true = deletePost dbC8 1 1 false ∧
    (deletePost dbC8 1 1 true).2 = Resp.ok ∧
    likesOf (deletePost dbC8 1 1 true).1 1 = 0 ∧
    deleteGroupPost dbC8 1 5 7 true = deleteGroupPost dbC8 1 5 7 false ∧
    (deleteGroupPost dbC8 1 5 7 true).2 = Resp.ok := by
  have h1 := (claim_C8_media_delete_swallowed dbC8 1 1 5).1 ⟨1, 1, "", some "url1", none, 1, 1⟩
    (by decide) rfl
  have h2 := (claim_C8_media_delete_swallowed dbC8 1 7 5).2 ⟨7, 1, "", some "url7", some 5, 0, 0⟩
    (by decide) rfl
  exact ⟨((h1 false).1).symm, (h1 true).2.1, (h1 true).2.2.2.1,
    ((h2 false).1).symm, (h2 true).2.1⟩

/-- A post row appended for an author with a user row is selected by the
author's public-post query, bumps the public posts count by one, and is
selected by the feed query of the author and of any follower of the
author — whatever its `group_id`. -/
theorem appended_post_visible (db db' : DB) (author viewer : Nat) (post : PostRow)
    (hpu : post.user_id = author)
    (hposts : db'.posts = db.posts ++ [post])
    (husers : db'.users = db.users)
    (hfol : db'.followers = db.followers)
    (hu : db.users.any (fun x => x.id == author) = true)
    (hf : db.followers.any (fun x => x.follower_id == viewer && x.following_id == author) = true) :
    post ∈ userPostsQuery db' author ∧
    postsCountQuery db' author = postsCountQuery db author + 1 ∧
    post ∈ feedQuery db' author ∧
    post ∈ feedQuery db' viewer := by
  have hmem : post ∈ db'.posts := by
    rw [hposts]
    simp
  refine ⟨?_, ?_, ?_, ?_⟩
  · refine List.mem_filter.mpr ⟨hmem, ?_⟩
    rw [husers, hpu]
    simp [hu]
  · simp only [postsCountQuery]
    rw [hposts]
    simp [List.filter_append, hpu]
  · refine List.mem_filter.mpr ⟨hmem, ?_⟩
    rw [husers, hpu]
    simp [hu]
  · refine List.mem_filter.mpr ⟨hmem, ?_⟩
    rw [husers, hfol, hpu]
    simp [hu, hf]

/-- C10: a post created through the group-post endpoint (stored with a
non-null `group_id`, regardless of the group's privacy) also appears
outside its group: it is selected by the author's public post listing
query, counted by the public posts count, and selected by the feed
queries of the author and of every follower of the author, because
those queries filter only on `user_id` and follow edges and never
mention `group_id`. -/
theorem claim_C10_group_posts_visible_outside (db : DB) (author g viewer : Nat)
    (caption : Option String) (url : String) (file : Option Unit)
    (hm : (memberRowsFor db g author).isEmpty = false)
    (hu : db.users.any (fun x => x.id == author) = true)
    (hf : db.followers.any (fun x => x.follower_id == viewer && x.following_id == author) = true) :
    ∃ post : PostRow,
      (createGroupPost db author g caption file (Except.ok url)).1.posts = db.posts ++ [post] ∧
      post.group_id = some g ∧
      post.user_id = author ∧
      post ∈ userPostsQuery (createGroupPost db author g caption file (Except.ok url)).1 author ∧
      postsCountQuery (createGroupPost db author g caption file (Except.ok url)).1 author
        = postsCountQuery db author + 1 ∧
      post ∈ feedQuery (createGroupPost db author g caption file (Except.ok url)).1 author ∧
      post ∈ feedQuery (createGroupPost db author g caption file (Except.ok url)).1 viewer := by
  cases file with
  | none =>
    have hres : createGroupPost db author g caption none (Except.ok url) =
        ({ db with
            posts := db.posts ++ [⟨db.next_id, author, caption.getD "", none, some g, 0, 0⟩],
            next_id := db.next_id + 1 },
          Resp.created) := by
      simp [createGroupPost, hm]
    refine ⟨⟨db.next_id, author, caption.getD "", none, some g, 0, 0⟩, by rw [hres], rfl, rfl,
      ?_, ?_, ?_, ?_⟩
    all_goals {
      have hv := appended_post_visible db (createGroupPost db author g caption none (Except.ok url)).1
        author viewer ⟨db.next_id, author, caption.getD "", none, some g, 0, 0⟩ rfl
        (by rw [hres]) (by rw [hres]) (by rw [hres]) hu hf
      first
        | exact hv.1
        | exact hv.2.1
        | exact hv.2.2.1
        | exact hv.2.2.2
    }
  | some _ =>
    have hres : createGroupPost db author g caption (some ()) (Except.ok url) =
        ({ db with
            posts := db.posts ++ [⟨db.next_id, author, caption.getD "", some url, some g, 0, 0⟩],
            next_id := db.next_id + 1 },
          Resp.created) := by
      simp [createGroupPost, hm]
    refine ⟨⟨db.next_id, author, caption.getD "", some url, some g, 0, 0⟩, by rw [hres], rfl, rfl,
      ?_, ?_, ?_, ?_⟩
    all_goals {
      have hv := appended_post_visible db
        (createGroupPost db author g caption (some ()) (Except.ok url)).1
        author viewer ⟨db.next_id, author, caption.getD "", some url, some g, 0, 0⟩ rfl
        (by rw [hres]) (by rw [hres]) (by rw [hres]) hu hf
      first
        | exact hv.1
        | exact hv.2.1
        | exact hv.2.2.1
        | exact hv.2.2.2
    }

/-- Concrete store for the C10 witness: bob follows alice; alice is a
member of the PRIVATE group 5 and posts there. -/
def dbC10 : DB :=
  { users := [⟨1, "alice", true⟩, ⟨2, "bob", true⟩],
    posts := [],
    likes := [],
    comments := [],
    followers := [⟨2, 1⟩],
    groups := [⟨5, "secret", true, 1, 1⟩],
    group_members := [⟨5, 1, .admin⟩],
    refresh_tokens := [],
    next_id := 6 }

theorem claim_C10_group_posts_visible_outside_witness :
    ∃ post : PostRow,
      (createGroupPost dbC10 1 5 (some "inside") none (Except.ok "u")).1.posts =
        dbC10.posts ++ [post] ∧
      post.group_id = some 5 ∧
      post.user_id = 1 ∧
      post ∈ userPostsQuery (createGroupPost dbC10 1 5 (some "inside") none (Except.ok "u")).1 1 ∧
      postsCountQuery (createGroupPost dbC10 1 5 (some "inside") none (Except.ok "u")).1 1
        = postsCountQuery dbC10 1 + 1 ∧
      post ∈ feedQuery (createGroupPost dbC10 1 5 (some "inside") none (Except.ok "u")).1 1 ∧
      post ∈ feedQuery (createGroupPost dbC10 1 5 (some "inside") none (Except.ok "u")).1 2 :=
  claim_C10_group_posts_visible_outside dbC10 1 5 2 (some "inside") "u" none
    (by decide) (by decide) (by decide)

end FastGram
